import Mathlib

/-!
Shallow embedding of the transaction-assembly, mock-database, balance-query and
liquidity-removal code of the telegram-trading-bot-starter repository
(src/mete-privy.ts, src/index.ts, src/mockDb.ts, src/solana.js, src/meteora.ts).

Public keys and blockhashes are opaque identifiers, modelled as naturals.
External collaborators (the chain RPC node and the remote custodial signer)
are modelled as oracles carried in an environment record; serialization
followed by deserialization of a transaction is modelled as the identity.
-/

namespace TgBot

abbrev Pubkey := Nat
abbrev Blockhash := Nat

/-- One compiled instruction of a versioned message: indices into the static
account-key table plus opaque payload bytes. -/
structure CompiledInstruction where
  programIdIndex : Nat
  accountKeyIndexes : List Nat
  data : List Nat
deriving DecidableEq

/-- The message of a versioned transaction as the code reads it:
staticAccountKeys, the header signer count, compiledInstructions and the
embedded recentBlockhash. The first numRequiredSignatures static keys are the
accounts required to sign. -/
structure MessageV0 where
  staticAccountKeys : List Pubkey
  numRequiredSignatures : Nat
  compiledInstructions : List CompiledInstruction
  recentBlockhash : Blockhash
deriving DecidableEq

/-- An account reference of a decompiled instruction: pubkey plus the
writability and signer flags. -/
structure AccountMeta where
  pubkey : Pubkey
  isSigner : Bool
  isWritable : Bool
deriving DecidableEq

/-- A decompiled (legacy-style) instruction: program id, account metas and
payload bytes. -/
structure Instruction where
  programId : Pubkey
  keys : List AccountMeta
  data : List Nat
deriving DecidableEq

/-- A legacy Transaction template as the code touches it: instruction list,
optional embedded blockhash and optional fee payer. -/
structure LegacyTx where
  instructions : List Instruction
  recentBlockhash : Option Blockhash
  feePayer : Option Pubkey
deriving DecidableEq

/-- The shape of the builder-returned template at the point the assembly code
branches on it: a VersionedTransaction, a legacy Transaction, a pre-serialized
base64 string, or anything else. -/
inductive TemplateTx where
  | versioned (m : MessageV0)
  | legacy (t : LegacyTx)
  | serialized (s : String)
  | unknown
deriving DecidableEq

/-- A compiled message ready for signing: the ordered list of accounts whose
signatures are required, the blockhash it carries, and its instructions. -/
structure CompiledMsg where
  requiredSigners : List Pubkey
  recentBlockhash : Blockhash
  instructions : List Instruction
deriving DecidableEq

/-- A (possibly partially) signed transaction: a compiled message together
with the set of accounts whose signature slots are filled. -/
structure SignedTx where
  msg : CompiledMsg
  signedBy : List Pubkey
deriving DecidableEq

/-- The required-signer keys of a compiled message: the fee payer followed by
every account meta flagged isSigner, as computed by compileToV0Message and by
the legacy Transaction compile step (duplicates are irrelevant: only
membership is ever consulted). -/
def requiredSignerKeys (payer : Pubkey) (instrs : List Instruction) : List Pubkey :=
  payer :: (((instrs.map Instruction.keys).flatten.filter (fun k => k.isSigner)).map (fun k => k.pubkey))

/-- Decompile one compiled instruction exactly as the assembly code does:
programId looked up from the static key table, every referenced account given
the fixed flags isSigner = false and isWritable = true, payload bytes copied
verbatim. -/
def decompileIx (m : MessageV0) (ix : CompiledInstruction) : Instruction :=
  { programId := m.staticAccountKeys.getD ix.programIdIndex 0,
    keys := ix.accountKeyIndexes.map (fun i =>
      { pubkey := m.staticAccountKeys.getD i 0, isSigner := false, isWritable := true }),
    data := ix.data }

/-- The instruction-extraction loop of the assembly code. The source iterates
over staticAccountKeys and reads compiledInstructions[idx] for each
account-key index idx: when there are more static account keys than compiled
instructions the JS code dereferences undefined and throws a TypeError
(modelled as none); otherwise it produces one instruction per account-key
index, i.e. the first staticAccountKeys.length compiled instructions,
decompiled. -/
def rebuildInstructions (m : MessageV0) : Option (List Instruction) :=
  if m.compiledInstructions.length < m.staticAccountKeys.length then none
  else some ((m.compiledInstructions.take m.staticAccountKeys.length).map (decompileIx m))

/-- Record a signature slot as filled (idempotently). -/
def addSig (tx : SignedTx) (k : Pubkey) : SignedTx :=
  if k ∈ tx.signedBy then tx else { tx with signedBy := tx.signedBy.concat k }

/-- The errors the assembly code can throw. fetchFailed: getLatestBlockhash
rejected. rebuildCrash: the TypeError from reading a field of
compiledInstructions[idx] = undefined. signerNotRequired: the web3.js sign /
partialSign assertion that the signing key is among the message required
signers. serializedTemplate and unknownTxType: the two explicit throw sites
of the shape dispatch. remoteSignFailed: the custodial signing call rejected.
There is no missing-signer pre-submission condition in the code. -/
inductive AErr where
  | fetchFailed (msg : String)
  | rebuildCrash
  | signerNotRequired (k : Pubkey)
  | serializedTemplate
  | unknownTxType
  | remoteSignFailed (msg : String)
deriving DecidableEq

/-- Sign a transaction with a keypair, as web3.js VersionedTransaction.sign
and legacy Transaction.partialSign both do: assert the key is among the
message required signers (throwing otherwise), then fill its slot. -/
def vtxSign (tx : SignedTx) (k : Pubkey) : Except AErr SignedTx :=
  if k ∈ tx.msg.requiredSigners then .ok (addSig tx k) else .error (.signerNotRequired k)

/-- The observable interactions of one assembly run. fetchBlockhash,
remoteSign and submit are network calls; localSign is the local keypair
signing step. -/
inductive Event where
  | fetchBlockhash
  | localSign
  | remoteSign
  | submit
deriving DecidableEq

def isNetworkEvent : Event → Bool
  | .localSign => false
  | _ => true

def eventOrder : Event → Nat
  | .fetchBlockhash => 0
  | .localSign => 1
  | .remoteSign => 2
  | .submit => 3

/-- The external collaborators: the chain RPC getLatestBlockhash call and the
remote custodial signer. -/
structure Env where
  latestBlockhash : Except String Blockhash
  remoteSign : SignedTx → Except String SignedTx

instance {ε α : Type} [DecidableEq ε] [DecidableEq α] : DecidableEq (Except ε α) := fun x y =>
  match x, y with
  | .error a, .error b => if h : a = b then .isTrue (by rw [h]) else .isFalse (by simp [h])
  | .error _, .ok _ => .isFalse (by simp)
  | .ok _, .error _ => .isFalse (by simp)
  | .ok a, .ok b => if h : a = b then .isTrue (by rw [h]) else .isFalse (by simp [h])

/-- The outcome of one run: the propagated result (the submitted transaction
on success) and the ordered trace of interactions that occurred. -/
structure RunResult where
  result : Except AErr SignedTx
  trace : List Event
deriving DecidableEq

/-- The legacy-shape finalization of the assembly code: recentBlockhash is
overwritten with the fresh blockhash, feePayer defaulted to the wallet
address, and the message compiled. -/
def legacyFinalTx (payer : Pubkey) (bh : Blockhash) (t : LegacyTx) : SignedTx :=
  { msg := { requiredSigners := requiredSignerKeys (t.feePayer.getD payer) t.instructions,
             recentBlockhash := bh,
             instructions := t.instructions },
    signedBy := [] }

/-- The tail of the assembly run after the local co-sign succeeded: the privy
signTransaction round trip, then deserialize(serialize(...)) of the returned
payload (identity here), then the defensive re-application of the co-signer
signature, then sendRawTransaction. No signature-presence check is performed
before submission. -/
def finishRemote (env : Env) (coSigner : Pubkey) (ft : SignedTx) (tr : List Event) : RunResult :=
  match env.remoteSign ft with
  | .error e => ⟨.error (.remoteSignFailed e), tr ++ [.remoteSign]⟩
  | .ok signedTransaction =>
    match vtxSign signedTransaction coSigner with
    | .error e => ⟨.error e, tr ++ [.remoteSign, .localSign]⟩
    | .ok signedTx => ⟨.ok signedTx, tr ++ [.remoteSign, .localSign, .submit]⟩

/-- The dual-signer assembly of createPosition (src/mete-privy.ts lines
316-381) and of the balance branch of the /createposition handler
(src/index.ts lines 697-762): fetch the latest blockhash first, then branch
on the template shape, rebuild (versioned) or patch (legacy) the transaction
with the fresh blockhash, locally sign with the position keypair, send to the
remote signer, re-apply the local signature, and submit. -/
def assembleBalance (env : Env) (payer coSigner : Pubkey) (tx : TemplateTx) : RunResult :=
  match env.latestBlockhash with
  | .error e => ⟨.error (.fetchFailed e), [.fetchBlockhash]⟩
  | .ok blockhash =>
    match tx with
    | .versioned m =>
      match rebuildInstructions m with
      | none => ⟨.error .rebuildCrash, [.fetchBlockhash]⟩
      | some instructions =>
        match vtxSign ⟨{ requiredSigners := requiredSignerKeys payer instructions,
                         recentBlockhash := blockhash,
                         instructions := instructions }, []⟩ coSigner with
        | .error e => ⟨.error e, [.fetchBlockhash, .localSign]⟩
        | .ok ft => finishRemote env coSigner ft [.fetchBlockhash, .localSign]
    | .legacy t =>
      match vtxSign (legacyFinalTx payer blockhash t) coSigner with
      | .error e => ⟨.error e, [.fetchBlockhash, .localSign]⟩
      | .ok ft => finishRemote env coSigner ft [.fetchBlockhash, .localSign]
    | .serialized _ => ⟨.error .serializedTemplate, [.fetchBlockhash]⟩
    | .unknown => ⟨.error .unknownTxType, [.fetchBlockhash]⟩

/-- The remote-then-submit tail of signAndSendTransaction (no local
co-signer). -/
def submitRemote (env : Env) (ft : SignedTx) (tr : List Event) : RunResult :=
  match env.remoteSign ft with
  | .error e => ⟨.error (.remoteSignFailed e), tr ++ [.remoteSign]⟩
  | .ok st => ⟨.ok st, tr ++ [.remoteSign, .submit]⟩

/-- signAndSendTransaction (src/mete-privy.ts lines 34-90): fetch the latest
blockhash, rebuild (versioned) or patch (legacy) the transaction, remote-sign
with privy, submit. This function has no co-signer and no string branch: a
pre-serialized template falls into the unknown-type throw. -/
def signAndSendTransaction (env : Env) (payer : Pubkey) (tx : TemplateTx) : RunResult :=
  match env.latestBlockhash with
  | .error e => ⟨.error (.fetchFailed e), [.fetchBlockhash]⟩
  | .ok blockhash =>
    match tx with
    | .versioned m =>
      match rebuildInstructions m with
      | none => ⟨.error .rebuildCrash, [.fetchBlockhash]⟩
      | some instructions =>
        submitRemote env
          ⟨{ requiredSigners := requiredSignerKeys payer instructions,
             recentBlockhash := blockhash,
             instructions := instructions }, []⟩ [.fetchBlockhash]
    | .legacy t => submitRemote env (legacyFinalTx payer blockhash t) [.fetchBlockhash]
    | .serialized _ => ⟨.error .unknownTxType, [.fetchBlockhash]⟩
    | .unknown => ⟨.error .unknownTxType, [.fetchBlockhash]⟩

/-- The imbalance and one-side branches of the /createposition handler
(src/index.ts lines 767-807): the builder-returned transaction is sent to the
remote signer directly (no blockhash fetch, no rebuild), the position keypair
signature is applied to the deserialized result, and it is submitted. -/
def assembleImbalance (env : Env) (coSigner : Pubkey) (tx : SignedTx) : RunResult :=
  finishRemote env coSigner tx []

/-! Mock database (src/mockDb.ts). The JSON file is modelled as an optional
insertion-ordered key/value list (none: the file does not exist or cannot be
parsed, in which case getAllUserWallets returns the empty mapping). JS object
keys are strings; numeric Telegram ids are coerced to their string form. -/

/-- The user-to-wallet mapping: a JS object, i.e. an insertion-ordered
key/value list with unique keys. -/
abbrev WalletMappings := List (String × String)

/-- Property lookup on a JS object: the value at the first matching key. -/
def findWallet : WalletMappings → String → Option String
  | [], _ => none
  | (k, v) :: rest, u => if k = u then some v else findWallet rest u

/-- Property assignment on a JS object: replace the value at an existing key
in place, or append a new key at the end. -/
def setKey : WalletMappings → String → String → WalletMappings
  | [], u, w => [(u, w)]
  | (k, v) :: rest, u, w => if k = u then (k, w) :: rest else (k, v) :: setKey rest u w

/-- The wallet-mappings file: none when it does not exist (or is unreadable). -/
structure FileState where
  contents : Option WalletMappings
deriving DecidableEq

/-- getAllUserWallets: parse the file if it exists, otherwise (or on any read
or parse error) return the empty mapping. -/
def getAllUserWallets (fs : FileState) : WalletMappings :=
  match fs.contents with
  | some m => m
  | none => []

/-- saveAllUserWallets: overwrite the file with the given mapping; a failed
write (caught and only logged by the source) leaves the file unchanged. -/
def saveAllUserWallets (writeOk : Bool) (fs : FileState) (m : WalletMappings) : FileState :=
  if writeOk then ⟨some m⟩ else fs

/-- saveUserWallet: load the existing mappings, update the one user's entry,
save the whole mapping back. -/
def saveUserWallet (writeOk : Bool) (fs : FileState) (userId walletId : String) : FileState :=
  saveAllUserWallets writeOk fs (setKey (getAllUserWallets fs) userId walletId)

/-! Token-balance query (src/solana.js, SolanaService.getTokenBalance). The
associated-token-account lookup is an oracle producing either the balance
string or the thrown error message. -/

def charsStartsWith : List Char → List Char → Bool
  | _, [] => true
  | [], _ :: _ => false
  | c :: cs, d :: ds => c == d && charsStartsWith cs ds

def charsIncludes : List Char → List Char → Bool
  | [], pat => charsStartsWith [] pat
  | s@(_ :: rest), pat => charsStartsWith s pat || charsIncludes rest pat

/-- JS String.prototype.includes. -/
def strIncludes (s pat : String) : Bool := charsIncludes s.data pat.data

/-- getTokenBalance: return the looked-up amount; on a thrown error whose
message contains the missing-account marker return the string 0, otherwise
re-throw. -/
def getTokenBalance (tokenAccountBalance : Except String String) : Except String String :=
  match tokenAccountBalance with
  | .ok amount => .ok amount
  | .error msg =>
    if strIncludes msg "could not find account" then .ok "0" else .error msg

/-! Liquidity removal (src/meteora.ts, MeteoraService.removeLiquidity). The
DLMM SDK is an oracle mapping the request parameters to either a single
transaction or an array of them. -/

/-- The parameter object passed to dlmmPool.removeLiquidity. -/
structure RemoveLiquidityParams where
  position : Pubkey
  user : Pubkey
  fromBinId : Int
  toBinId : Int
  bps : Int
  shouldClaimAndClose : Bool
deriving DecidableEq

/-- What the SDK may return: a single transaction or an array. -/
inductive SdkResult (α : Type) where
  | single (t : α)
  | multiple (ts : List α)

/-- The request MeteoraService.removeLiquidity builds: fixed bin range 0..100,
the requested bps, and shouldClaimAndClose exactly when bps strictly equals
10000. -/
def removeLiquidityParams (positionPubKey userPubkey : Pubkey) (bps : Int) : RemoveLiquidityParams :=
  { position := positionPubKey, user := userPubkey, fromBinId := 0, toBinId := 100,
    bps := bps, shouldClaimAndClose := bps == 10000 }

/-- Array.isArray(txs) ? txs : [txs]. -/
def normalizeTxs {α : Type} : SdkResult α → List α
  | .single t => [t]
  | .multiple ts => ts

/-- MeteoraService.removeLiquidity: build the request, call the SDK, and
normalize the result to an array. -/
def removeLiquidity {α : Type} (sdk : RemoveLiquidityParams → SdkResult α)
    (positionPubKey userPubkey : Pubkey) (bps : Int) : List α :=
  normalizeTxs (sdk (removeLiquidityParams positionPubKey userPubkey bps))

/-! Concrete fixtures used to evaluate the code on explicit inputs. Pubkey 1
stands for the custodial wallet (fee payer), pubkey 2 for the locally
generated position keypair (co-signer). -/

/-- An environment whose remote signer returns the payload unchanged (a
fault-injected signer that adds no signature). -/
def envId : Env := ⟨.ok 42, fun t => .ok t⟩

/-- An environment whose blockhash fetch fails with a network timeout. -/
def envFail : Env := ⟨.error "network timeout", fun t => .ok t⟩

/-- An environment whose remote signer fills the custodial wallet signature
slot (pubkey 1) and returns the payload otherwise unchanged. -/
def envW : Env := ⟨.ok 42, fun t => .ok (addSig t 1)⟩

/-- An environment whose remote signer returns a payload signed by the
custodial wallet but with every previously attached signature dropped
(a lossy round trip). -/
def envDrop : Env := ⟨.ok 42, fun t => .ok ⟨t.msg, [1]⟩⟩

/-- A versioned template with two static account keys but a single compiled
instruction (the common shape: more referenced accounts than instructions). -/
def mCrash : MessageV0 := ⟨[10, 11], 1, [⟨0, [1], [1, 2, 3]⟩], 5⟩

/-- A versioned template with one static account key and two compiled
instructions. -/
def mDrop : MessageV0 := ⟨[10], 1, [⟨0, [0], [1]⟩, ⟨0, [0], [2]⟩], 5⟩

/-- A versioned template in which the position keypair (pubkey 2, static key
index 1) is one of the two required signers, with as many compiled
instructions as static account keys so that the extraction loop completes. -/
def mSigner : MessageV0 := ⟨[1, 2], 2, [⟨0, [1], [7]⟩, ⟨0, [0, 1], [8]⟩], 5⟩

/-- A legacy template with one instruction whose account metas mark the
position keypair (pubkey 2) as a required signer; embedded blockhash 5, no
fee payer set yet. -/
def tLegacy : LegacyTx := ⟨[⟨7, [⟨2, true, true⟩], [1]⟩], some 5, none⟩

/-- A builder-returned transaction as the imbalance and one-side branches
receive it: required signers wallet (1) and position keypair (2), embedded
blockhash 77, unsigned. -/
def txImbal : SignedTx := ⟨⟨[1, 2], 77, [⟨7, [⟨2, true, true⟩], [1]⟩]⟩, []⟩

/-- The transaction the balance branch submits on the run with template
tLegacy, environment envId (fault-injected identity remote signer), wallet 1
and co-signer 2: only the co-signer slot is filled. -/
def submittedNoRemote : SignedTx := ⟨⟨[1, 2], 42, [⟨7, [⟨2, true, true⟩], [1]⟩]⟩, [2]⟩

/-- The transaction the imbalance branch submits on the run with template
txImbal, environment envW and co-signer 2: both slots filled, message (and in
particular blockhash 77) exactly that of the template. -/
def submittedImbal : SignedTx := ⟨⟨[1, 2], 77, [⟨7, [⟨2, true, true⟩], [1]⟩]⟩, [1, 2]⟩

/-! Helper lemmas about the embedded operations. -/

theorem addSig_msg (t : SignedTx) (k : Pubkey) : (addSig t k).msg = t.msg := by
  unfold addSig; split <;> rfl

theorem addSig_mem_self (t : SignedTx) (k : Pubkey) : k ∈ (addSig t k).signedBy := by
  unfold addSig; split
  · assumption
  · simp

theorem addSig_mem_mono (t : SignedTx) (k x : Pubkey) (h : x ∈ t.signedBy) :
    x ∈ (addSig t k).signedBy := by
  unfold addSig; split
  · exact h
  · simp [h]

theorem vtxSign_ok_msg (tx : SignedTx) (k : Pubkey) (ft : SignedTx)
    (h : vtxSign tx k = .ok ft) : ft.msg = tx.msg := by
  unfold vtxSign at h
  split at h
  · simp only [Except.ok.injEq] at h; rw [← h, addSig_msg]
  · simp at h

theorem vtxSign_ok_signed (tx : SignedTx) (k : Pubkey) (ft : SignedTx)
    (h : vtxSign tx k = .ok ft) : k ∈ ft.signedBy := by
  unfold vtxSign at h
  split at h
  · simp only [Except.ok.injEq] at h; rw [← h]; exact addSig_mem_self tx k
  · simp at h

theorem vtxSign_ok_signed_mono (tx : SignedTx) (k x : Pubkey) (ft : SignedTx)
    (h : vtxSign tx k = .ok ft) (hx : x ∈ tx.signedBy) : x ∈ ft.signedBy := by
  unfold vtxSign at h
  split at h
  · simp only [Except.ok.injEq] at h; rw [← h]; exact addSig_mem_mono tx k x hx
  · simp at h

theorem finishRemote_trace_cases (env : Env) (k : Pubkey) (ft : SignedTx) (tr : List Event) :
    (finishRemote env k ft tr).trace = tr ++ [.remoteSign] ∨
    (finishRemote env k ft tr).trace = tr ++ [.remoteSign, .localSign] ∨
    (finishRemote env k ft tr).trace = tr ++ [.remoteSign, .localSign, .submit] := by
  unfold finishRemote
  rcases henv : env.remoteSign ft with e | st <;> simp only [henv]
  · simp
  · rcases hs : vtxSign st k with e | st2 <;> simp only [hs] <;> simp

theorem assembleBalance_trace_cases (env : Env) (payer k : Pubkey) (tx : TemplateTx) :
    (assembleBalance env payer k tx).trace = [.fetchBlockhash] ∨
    (assembleBalance env payer k tx).trace = [.fetchBlockhash, .localSign] ∨
    (assembleBalance env payer k tx).trace = [.fetchBlockhash, .localSign, .remoteSign] ∨
    (assembleBalance env payer k tx).trace = [.fetchBlockhash, .localSign, .remoteSign, .localSign] ∨
    (assembleBalance env payer k tx).trace =
      [.fetchBlockhash, .localSign, .remoteSign, .localSign, .submit] := by
  unfold assembleBalance
  rcases hbh : env.latestBlockhash with e | bh <;> simp only [hbh]
  · simp
  · cases tx with
    | versioned m =>
      rcases hr : rebuildInstructions m with _ | instrs <;> simp only [hr]
      · simp
      · rcases hv : vtxSign ⟨{ requiredSigners := requiredSignerKeys payer instrs,
                               recentBlockhash := bh,
                               instructions := instrs }, []⟩ k with e | ft <;> simp only [hv]
        · simp
        · rcases finishRemote_trace_cases env k ft [.fetchBlockhash, .localSign] with h | h | h <;>
            simp [h]
    | legacy t =>
      rcases hv : vtxSign (legacyFinalTx payer bh t) k with e | ft <;> simp only [hv]
      · simp
      · rcases finishRemote_trace_cases env k ft [.fetchBlockhash, .localSign] with h | h | h <;>
          simp [h]
    | serialized s => simp
    | unknown => simp

theorem submitRemote_trace_cases (env : Env) (ft : SignedTx) (tr : List Event) :
    (submitRemote env ft tr).trace = tr ++ [.remoteSign] ∨
    (submitRemote env ft tr).trace = tr ++ [.remoteSign, .submit] := by
  unfold submitRemote
  rcases henv : env.remoteSign ft with e | st <;> simp [henv]

theorem signAndSend_trace_cases (env : Env) (payer : Pubkey) (tx : TemplateTx) :
    (signAndSendTransaction env payer tx).trace = [.fetchBlockhash] ∨
    (signAndSendTransaction env payer tx).trace = [.fetchBlockhash, .remoteSign] ∨
    (signAndSendTransaction env payer tx).trace = [.fetchBlockhash, .remoteSign, .submit] := by
  unfold signAndSendTransaction
  rcases hbh : env.latestBlockhash with e | bh <;> simp only [hbh]
  · simp
  · cases tx with
    | versioned m =>
      rcases hr : rebuildInstructions m with _ | instrs <;> simp only [hr]
      · simp
      · rcases submitRemote_trace_cases env
          ⟨{ requiredSigners := requiredSignerKeys payer instrs,
             recentBlockhash := bh, instructions := instrs }, []⟩ [.fetchBlockhash] with h | h <;>
          simp [h]
    | legacy t =>
      rcases submitRemote_trace_cases env (legacyFinalTx payer bh t) [.fetchBlockhash] with h | h <;>
        simp [h]
    | serialized s => simp
    | unknown => simp

theorem finishRemote_ok_msg (env : Env) (k : Pubkey) (ft : SignedTx) (tr : List Event)
    (st : SignedTx) (hpres : ∀ t p, env.remoteSign t = .ok p → p.msg = t.msg)
    (h : (finishRemote env k ft tr).result = .ok st) : st.msg = ft.msg := by
  unfold finishRemote at h
  rcases hrs : env.remoteSign ft with e | p <;> simp only [hrs] at h
  · simp at h
  · rcases hv : vtxSign p k with e | st2 <;> simp only [hv] at h
    · simp at h
    · simp at h
      subst h
      rw [vtxSign_ok_msg p k st2 hv]
      exact hpres ft p hrs

theorem rebuild_no_signer_metas (m : MessageV0) (instrs : List Instruction)
    (hr : rebuildInstructions m = some instrs) :
    ∀ ix ∈ instrs, ∀ meta ∈ ix.keys, meta.isSigner = false := by
  unfold rebuildInstructions at hr
  split at hr
  · simp at hr
  · simp only [Option.some.injEq] at hr
    subst hr
    intro ix hix meta hmeta
    rcases List.mem_map.mp hix with ⟨ci, _, hci⟩
    subst hci
    unfold decompileIx at hmeta
    simp only at hmeta
    rcases List.mem_map.mp hmeta with ⟨i, _, hi⟩
    rw [← hi]

theorem rebuild_requiredSigners (m : MessageV0) (instrs : List Instruction) (payer : Pubkey)
    (hr : rebuildInstructions m = some instrs) :
    requiredSignerKeys payer instrs = [payer] := by
  unfold requiredSignerKeys
  have hfilter : ((instrs.map Instruction.keys).flatten.filter (fun k => k.isSigner)) = [] := by
    rw [List.filter_eq_nil_iff]
    intro a ha
    rcases List.mem_flatten.mp ha with ⟨keys, hkeys, hak⟩
    rcases List.mem_map.mp hkeys with ⟨ix, hix, hx⟩
    subst hx
    simp [rebuild_no_signer_metas m instrs hr ix hix a hak]
  rw [hfilter]
  rfl

end TgBot

namespace TgBot

theorem assembleBalance_legacy_run (env : Env) (payer k : Pubkey) (t : LegacyTx)
    (bh : Blockhash) (p : SignedTx)
    (hbh : env.latestBlockhash = .ok bh)
    (hk : k ∈ (legacyFinalTx payer bh t).msg.requiredSigners)
    (hrs : env.remoteSign (addSig (legacyFinalTx payer bh t) k) = .ok p)
    (hk2 : k ∈ p.msg.requiredSigners) :
    assembleBalance env payer k (.legacy t) =
      ⟨.ok (addSig p k), [.fetchBlockhash, .localSign, .remoteSign, .localSign, .submit]⟩ := by
  unfold assembleBalance
  simp only [hbh]
  unfold vtxSign
  rw [if_pos hk]
  unfold finishRemote
  simp only [hrs]
  unfold vtxSign
  rw [if_pos hk2]
  rfl

theorem assembleBalance_versioned_not_signer (env : Env) (payer k : Pubkey) (m : MessageV0)
    (instrs : List Instruction) (bh : Blockhash)
    (hbh : env.latestBlockhash = .ok bh)
    (hr : rebuildInstructions m = some instrs)
    (hne : k ≠ payer) :
    assembleBalance env payer k (.versioned m) =
      ⟨.error (.signerNotRequired k), [.fetchBlockhash, .localSign]⟩ := by
  unfold assembleBalance
  simp only [hbh, hr]
  unfold vtxSign
  have hnot : k ∉ ({ requiredSigners := requiredSignerKeys payer instrs,
                     recentBlockhash := bh, instructions := instrs } : CompiledMsg).requiredSigners := by
    show k ∉ requiredSignerKeys payer instrs
    rw [rebuild_requiredSigners m instrs payer hr]
    simp [hne]
  rw [if_neg hnot]

theorem assembleBalance_versioned_crash (env : Env) (payer k : Pubkey) (m : MessageV0)
    (bh : Blockhash)
    (hbh : env.latestBlockhash = .ok bh)
    (hr : rebuildInstructions m = none) :
    assembleBalance env payer k (.versioned m) = ⟨.error .rebuildCrash, [.fetchBlockhash]⟩ := by
  unfold assembleBalance
  simp [hbh, hr]

theorem findWallet_setKey_self (m : WalletMappings) (u w : String) :
    findWallet (setKey m u w) u = some w := by
  induction m with
  | nil => simp [setKey, findWallet]
  | cons kv rest ih =>
    obtain ⟨k, v⟩ := kv
    unfold setKey
    by_cases hk : k = u
    · rw [if_pos hk]; unfold findWallet; rw [if_pos hk]
    · rw [if_neg hk]; unfold findWallet; rw [if_neg hk]; exact ih

theorem findWallet_setKey_ne (m : WalletMappings) (u w v : String) (h : v ≠ u) :
    findWallet (setKey m u w) v = findWallet m v := by
  induction m with
  | nil =>
    unfold setKey findWallet
    rw [if_neg (fun hh => h hh.symm)]
    rfl
  | cons kv rest ih =>
    obtain ⟨k, v2⟩ := kv
    unfold setKey
    by_cases hk : k = u
    · rw [if_pos hk]
      unfold findWallet
      by_cases hkv : k = v
      · exact absurd (hkv.symm.trans hk) h
      · rw [if_neg hkv, if_neg hkv]
    · rw [if_neg hk]
      unfold findWallet
      by_cases hkv : k = v
      · rw [if_pos hkv, if_pos hkv]
      · rw [if_neg hkv, if_neg hkv]; exact ih

end TgBot

namespace TgBot

/-- C1: the claim states that the rebuilt transaction always contains exactly
the template's N compiled instructions in order. The extraction loop instead
produces one instruction per static account key: on mCrash (two static keys,
one compiled instruction) it dereferences an undefined entry and the run
aborts before submitting anything, and on mDrop (one static key, two
compiled instructions) it silently drops the second instruction. -/
theorem rebuild_instruction_count_bug :
    mCrash.compiledInstructions.length = 1 ∧
    mCrash.staticAccountKeys.length = 2 ∧
    rebuildInstructions mCrash = none ∧
    (assembleBalance envId 1 2 (.versioned mCrash)).result = .error .rebuildCrash ∧
    Event.submit ∉ (assembleBalance envId 1 2 (.versioned mCrash)).trace ∧
    mDrop.compiledInstructions.length = 2 ∧
    (rebuildInstructions mDrop).map List.length = some 1 := by decide

/-- C2 counterexample: a balance-branch run (legacy template tLegacy, wallet
1, co-signer 2) against the fault-injected remote signer envId that returns
the payload without adding any signature: the run still submits, the
submitted transaction lacks the required wallet signature, and no
MissingSignerError-style failure occurs. -/
theorem submit_despite_missing_remote_signature :
    (assembleBalance envId 1 2 (.legacy tLegacy)).result = .ok submittedNoRemote ∧
    Event.submit ∈ (assembleBalance envId 1 2 (.legacy tLegacy)).trace ∧
    (1 : Pubkey) ∈ submittedNoRemote.msg.requiredSigners ∧
    (1 : Pubkey) ∉ submittedNoRemote.signedBy := by decide

/-- C2 amended: the assembly performs no pre-submission signature check (no
MissingSignerError condition exists in the code): once the fetch, the local
co-sign and the remote round trip complete, the co-signer signature is
re-applied and the transaction is submitted whatever signatures the
remote-signed payload carries. -/
theorem no_presubmission_signature_check (env : Env) (payer k : Pubkey) (t : LegacyTx)
    (bh : Blockhash) (p : SignedTx)
    (hbh : env.latestBlockhash = .ok bh)
    (hk : k ∈ (legacyFinalTx payer bh t).msg.requiredSigners)
    (hrs : env.remoteSign (addSig (legacyFinalTx payer bh t) k) = .ok p)
    (hk2 : k ∈ p.msg.requiredSigners) :
    (assembleBalance env payer k (.legacy t)).result = .ok (addSig p k) ∧
    Event.submit ∈ (assembleBalance env payer k (.legacy t)).trace := by
  rw [assembleBalance_legacy_run env payer k t bh p hbh hk hrs hk2]
  exact ⟨rfl, by simp⟩

/-- C2 witness: the amended theorem applied to the concrete run of the
counterexample (envId adds no signature, so addSig p 2 leaves the payload
with only the co-signer slot filled). -/
theorem no_presubmission_signature_check_witness :
    (assembleBalance envId 1 2 (.legacy tLegacy)).result =
      .ok (addSig ⟨⟨[1, 2], 42, [⟨7, [⟨2, true, true⟩], [1]⟩]⟩, [2]⟩ 2) ∧
    Event.submit ∈ (assembleBalance envId 1 2 (.legacy tLegacy)).trace :=
  no_presubmission_signature_check envId 1 2 tLegacy 42
    ⟨⟨[1, 2], 42, [⟨7, [⟨2, true, true⟩], [1]⟩]⟩, [2]⟩ rfl (by decide) (by decide) (by decide)

end TgBot

namespace TgBot

/-- C3 counterexample: on a pre-serialized (string) template the run does
perform the blockhash fetch: the error is raised only afterwards, so a
network call to the broadcaster occurs. -/
theorem serialized_template_fetch_first :
    assembleBalance envId 1 2 (.serialized "SGVsbG8=") =
      ⟨.error .serializedTemplate, [.fetchBlockhash]⟩ ∧
    Event.fetchBlockhash ∈ (assembleBalance envId 1 2 (.serialized "SGVsbG8=")).trace := by
  constructor
  · rfl
  · decide

/-- C3 amended: a pre-serialized template makes the assembly fail with the
serialized-template error before the remote-signing call and before
submission, but only after the blockhash fetch has already happened (the
fetch precedes the shape check in the code). -/
theorem serialized_template_fails_after_fetch (env : Env) (payer k : Pubkey) (s : String)
    (bh : Blockhash) (hbh : env.latestBlockhash = .ok bh) :
    assembleBalance env payer k (.serialized s) =
      ⟨.error .serializedTemplate, [.fetchBlockhash]⟩ ∧
    Event.remoteSign ∉ (assembleBalance env payer k (.serialized s)).trace ∧
    Event.submit ∉ (assembleBalance env payer k (.serialized s)).trace ∧
    Event.fetchBlockhash ∈ (assembleBalance env payer k (.serialized s)).trace := by
  simp [assembleBalance, hbh]

/-- C3 witness: the amended theorem applied at the concrete pre-serialized
template run. -/
theorem serialized_template_fails_after_fetch_witness :
    assembleBalance envId 1 2 (.serialized "SGVsbG8=") =
      ⟨.error .serializedTemplate, [.fetchBlockhash]⟩ ∧
    Event.remoteSign ∉ (assembleBalance envId 1 2 (.serialized "SGVsbG8=")).trace ∧
    Event.submit ∉ (assembleBalance envId 1 2 (.serialized "SGVsbG8=")).trace ∧
    Event.fetchBlockhash ∈ (assembleBalance envId 1 2 (.serialized "SGVsbG8=")).trace :=
  serialized_template_fails_after_fetch envId 1 2 "SGVsbG8=" 42 rfl

end TgBot

namespace TgBot

/-- C4 counterexample: an imbalance-branch run submits successfully without
any blockhash fetch, and the submitted transaction carries exactly the
blockhash embedded in the builder-returned template (77), contradicting the
claim that every assembly-and-send run fetches and installs a fresh
blockhash. -/
theorem imbalance_submits_embedded_blockhash :
    (assembleImbalance envW 2 txImbal).result = .ok submittedImbal ∧
    Event.submit ∈ (assembleImbalance envW 2 txImbal).trace ∧
    Event.fetchBlockhash ∉ (assembleImbalance envW 2 txImbal).trace ∧
    submittedImbal.msg.recentBlockhash = txImbal.msg.recentBlockhash := by decide

/-- C4 amended: the balance branch (and the mete-privy flows) do fetch a
fresh blockhash and every transaction they submit carries it, but the
imbalance and one-side branches never fetch a blockhash and submit the
transaction with the blockhash embedded in the builder-returned template
(assuming the remote signer returns the payload with its message intact). -/
theorem fresh_blockhash_balance_branch_only :
    (∀ (env : Env) (payer k : Pubkey) (tx : TemplateTx) (bh : Blockhash) (st : SignedTx),
      env.latestBlockhash = .ok bh →
      (∀ t p, env.remoteSign t = .ok p → p.msg = t.msg) →
      (assembleBalance env payer k tx).result = .ok st →
      st.msg.recentBlockhash = bh ∧
      Event.fetchBlockhash ∈ (assembleBalance env payer k tx).trace) ∧
    (∀ (env : Env) (k : Pubkey) (tx st : SignedTx),
      Event.fetchBlockhash ∉ (assembleImbalance env k tx).trace ∧
      ((∀ t p, env.remoteSign t = .ok p → p.msg = t.msg) →
        (assembleImbalance env k tx).result = .ok st →
        st.msg.recentBlockhash = tx.msg.recentBlockhash)) := by
  constructor
  · intro env payer k tx bh st hbh hpres hok
    constructor
    · unfold assembleBalance at hok
      simp only [hbh] at hok
      cases tx with
      | versioned m =>
        rcases hr : rebuildInstructions m with _ | instrs <;> simp only [hr] at hok
        · simp at hok
        · rcases hv : vtxSign ⟨{ requiredSigners := requiredSignerKeys payer instrs,
                                 recentBlockhash := bh,
                                 instructions := instrs }, []⟩ k with e | ft <;>
            simp only [hv] at hok
          · simp at hok
          · have hmsg := finishRemote_ok_msg env k ft _ st hpres hok
            rw [hmsg, vtxSign_ok_msg _ k ft hv]
      | legacy t =>
        rcases hv : vtxSign (legacyFinalTx payer bh t) k with e | ft <;> simp only [hv] at hok
        · simp at hok
        · have hmsg := finishRemote_ok_msg env k ft _ st hpres hok
          rw [hmsg, vtxSign_ok_msg _ k ft hv]
          rfl
      | serialized s => simp at hok
      | unknown => simp at hok
    · rcases assembleBalance_trace_cases env payer k tx with h | h | h | h | h <;> simp [h]
  · intro env k tx st
    constructor
    · rcases finishRemote_trace_cases env k tx [] with h | h | h <;>
        · show Event.fetchBlockhash ∉ (finishRemote env k tx []).trace
          simp [h]
    · intro hpres hok
      have hmsg := finishRemote_ok_msg env k tx [] st hpres hok
      rw [hmsg]

/-- C4 witness: the amended theorem applied to a concrete balance-branch run
(fresh blockhash 42 installed) and to the concrete imbalance-branch run
(no fetch, embedded blockhash 77 preserved). -/
theorem fresh_blockhash_balance_branch_only_witness :
    ((⟨⟨[1, 2], 42, [⟨7, [⟨2, true, true⟩], [1]⟩]⟩, [2, 1]⟩ : SignedTx).msg.recentBlockhash = 42 ∧
      Event.fetchBlockhash ∈ (assembleBalance envW 1 2 (.legacy tLegacy)).trace) ∧
    Event.fetchBlockhash ∉ (assembleImbalance envW 2 txImbal).trace :=
  ⟨fresh_blockhash_balance_branch_only.1 envW 1 2 (.legacy tLegacy) 42
      ⟨⟨[1, 2], 42, [⟨7, [⟨2, true, true⟩], [1]⟩]⟩, [2, 1]⟩ rfl
      (fun t p hp => by
        simp only [envW] at hp
        rcases hp with ⟨⟩
        rw [addSig_msg]) (by decide),
   (fresh_blockhash_balance_branch_only.2 envW 2 txImbal txImbal).1⟩

end TgBot

namespace TgBot

/-- C5 counterexample: a versioned template (mSigner) in which the co-signer
(pubkey 2) is one of the required signers, run against the lossy remote
signer envDrop of the claimed scenario: the run fails at the local signing
step, so the remote round trip, the re-application and the submission never
happen for the versioned shape. -/
theorem versioned_resign_unreachable :
    (2 : Pubkey) ∈ mSigner.staticAccountKeys.take mSigner.numRequiredSignatures ∧
    (assembleBalance envDrop 1 2 (.versioned mSigner)).result = .error (.signerNotRequired 2) ∧
    Event.remoteSign ∉ (assembleBalance envDrop 1 2 (.versioned mSigner)).trace ∧
    Event.submit ∉ (assembleBalance envDrop 1 2 (.versioned mSigner)).trace := by decide

/-- C5 amended: after the remote round trip the assembler deserializes the
payload and re-applies the co-signer signature, repairing a lost co-signer
signature for the legacy shape (the submitted transaction then carries the
co-signer signature and everything the remote signer attached); the
versioned shape never reaches that step, because rebuilding either crashes
or yields a message whose only required signer is the fee payer, making the
local co-sign fail first for any co-signer other than the payer. -/
theorem resign_repairs_legacy_only :
    (∀ (env : Env) (payer k : Pubkey) (t : LegacyTx) (bh : Blockhash) (p : SignedTx),
      env.latestBlockhash = .ok bh →
      k ∈ (legacyFinalTx payer bh t).msg.requiredSigners →
      env.remoteSign (addSig (legacyFinalTx payer bh t) k) = .ok p →
      k ∈ p.msg.requiredSigners →
      (assembleBalance env payer k (.legacy t)).result = .ok (addSig p k) ∧
      k ∈ (addSig p k).signedBy ∧
      (∀ x ∈ p.signedBy, x ∈ (addSig p k).signedBy)) ∧
    (∀ (env : Env) (payer k : Pubkey) (m : MessageV0) (instrs : List Instruction) (bh : Blockhash),
      env.latestBlockhash = .ok bh →
      rebuildInstructions m = some instrs →
      k ≠ payer →
      (assembleBalance env payer k (.versioned m)).result = .error (.signerNotRequired k) ∧
      Event.remoteSign ∉ (assembleBalance env payer k (.versioned m)).trace) ∧
    (∀ (env : Env) (payer k : Pubkey) (m : MessageV0) (bh : Blockhash),
      env.latestBlockhash = .ok bh →
      rebuildInstructions m = none →
      (assembleBalance env payer k (.versioned m)).result = .error .rebuildCrash ∧
      Event.remoteSign ∉ (assembleBalance env payer k (.versioned m)).trace) := by
  refine ⟨?_, ?_, ?_⟩
  · intro env payer k t bh p hbh hk hrs hk2
    rw [assembleBalance_legacy_run env payer k t bh p hbh hk hrs hk2]
    exact ⟨rfl, addSig_mem_self p k, fun x hx => addSig_mem_mono p k x hx⟩
  · intro env payer k m instrs bh hbh hr hne
    rw [assembleBalance_versioned_not_signer env payer k m instrs bh hbh hr hne]
    exact ⟨rfl, by simp⟩
  · intro env payer k m bh hbh hr
    rw [assembleBalance_versioned_crash env payer k m bh hbh hr]
    exact ⟨rfl, by simp⟩

/-- C5 witness: the legacy part applied to the concrete lossy run (envDrop
returns the payload signed by the wallet with the co-signer slot dropped;
the re-application restores it, so both signatures are present at
submission), and the versioned part applied to the concrete template
mSigner. -/
theorem resign_repairs_legacy_only_witness :
    ((assembleBalance envDrop 1 2 (.legacy tLegacy)).result =
        .ok (addSig ⟨⟨[1, 2], 42, [⟨7, [⟨2, true, true⟩], [1]⟩]⟩, [1]⟩ 2) ∧
      (2 : Pubkey) ∈ (addSig (⟨⟨[1, 2], 42, [⟨7, [⟨2, true, true⟩], [1]⟩]⟩, [1]⟩ : SignedTx) 2).signedBy ∧
      (∀ x ∈ (⟨⟨[1, 2], 42, [⟨7, [⟨2, true, true⟩], [1]⟩]⟩, [1]⟩ : SignedTx).signedBy,
        x ∈ (addSig (⟨⟨[1, 2], 42, [⟨7, [⟨2, true, true⟩], [1]⟩]⟩, [1]⟩ : SignedTx) 2).signedBy)) ∧
    ((assembleBalance envDrop 1 2 (.versioned mSigner)).result = .error (.signerNotRequired 2) ∧
      Event.remoteSign ∉ (assembleBalance envDrop 1 2 (.versioned mSigner)).trace) :=
  ⟨resign_repairs_legacy_only.1 envDrop 1 2 tLegacy 42
      ⟨⟨[1, 2], 42, [⟨7, [⟨2, true, true⟩], [1]⟩]⟩, [1]⟩ rfl (by decide) (by decide) (by decide),
   resign_repairs_legacy_only.2.1 envDrop 1 2 mSigner
      [⟨1, [⟨2, false, true⟩], [7]⟩, ⟨1, [⟨1, false, true⟩, ⟨2, false, true⟩], [8]⟩] 42 rfl
      (by decide) (by decide)⟩

end TgBot

namespace TgBot

/-- C6: in every assembly run the network interactions occur in the strict
order blockhash fetch, then remote signing, then submission (each at most
once), a local co-sign lies between the fetch and any remote-sign call, and
a failed blockhash fetch surfaces as the run error without the remote
custodial signer ever being invoked; the same ordering and fetch-failure
behaviour holds for signAndSendTransaction. -/
theorem assembly_network_order (env : Env) (payer k : Pubkey) (tx : TemplateTx) :
    List.Pairwise (fun a b => eventOrder a < eventOrder b)
      ((assembleBalance env payer k tx).trace.filter isNetworkEvent) ∧
    (Event.remoteSign ∈ (assembleBalance env payer k tx).trace →
      List.Sublist [Event.fetchBlockhash, Event.localSign, Event.remoteSign]
        (assembleBalance env payer k tx).trace) ∧
    (∀ e, env.latestBlockhash = .error e →
      (assembleBalance env payer k tx).result = .error (.fetchFailed e) ∧
      Event.remoteSign ∉ (assembleBalance env payer k tx).trace) ∧
    List.Pairwise (fun a b => eventOrder a < eventOrder b)
      ((signAndSendTransaction env payer tx).trace.filter isNetworkEvent) ∧
    (∀ e, env.latestBlockhash = .error e →
      (signAndSendTransaction env payer tx).result = .error (.fetchFailed e) ∧
      Event.remoteSign ∉ (signAndSendTransaction env payer tx).trace) := by
  refine ⟨?_, ?_, ?_, ?_, ?_⟩
  · rcases assembleBalance_trace_cases env payer k tx with h | h | h | h | h <;> rw [h] <;> decide
  · intro hmem
    rcases assembleBalance_trace_cases env payer k tx with h | h | h | h | h <;>
      rw [h] at hmem ⊢ <;> revert hmem <;> decide
  · intro e he
    constructor <;> simp [assembleBalance, he]
  · rcases signAndSend_trace_cases env payer tx with h | h | h <;> rw [h] <;> decide
  · intro e he
    constructor <;> simp [signAndSendTransaction, he]

/-- C6 witness: the theorem applied at a concrete environment whose blockhash
fetch fails with a network timeout: the run surfaces the timeout and never
calls the remote signer. -/
theorem assembly_network_order_witness :
    (assembleBalance envFail 1 2 (.legacy tLegacy)).result =
      .error (.fetchFailed "network timeout") ∧
    Event.remoteSign ∉ (assembleBalance envFail 1 2 (.legacy tLegacy)).trace :=
  (assembly_network_order envFail 1 2 (.legacy tLegacy)).2.2.1 "network timeout" rfl

/-- C7: the claim states that the rebuild re-derives the writability and
signer flags so that template-required signers stay signers. On mSigner the
extraction preserves program ids and payload bytes verbatim but assigns the
fixed flags isSigner = false and isWritable = true to every account
reference; pubkey 2 is a required signer of the original template, yet the
rebuilt message admits only the fee payer as signer, so the local co-sign
with pubkey 2 throws and the run dies before the remote round trip. -/
theorem rebuild_assigns_fixed_flags :
    rebuildInstructions mSigner =
      some [⟨1, [⟨2, false, true⟩], [7]⟩, ⟨1, [⟨1, false, true⟩, ⟨2, false, true⟩], [8]⟩] ∧
    (2 : Pubkey) ∈ mSigner.staticAccountKeys.take mSigner.numRequiredSignatures ∧
    requiredSignerKeys 1 [⟨1, [⟨2, false, true⟩], [7]⟩,
      ⟨1, [⟨1, false, true⟩, ⟨2, false, true⟩], [8]⟩] = [1] ∧
    (assembleBalance envW 1 2 (.versioned mSigner)).result = .error (.signerNotRequired 2) ∧
    Event.remoteSign ∉ (assembleBalance envW 1 2 (.versioned mSigner)).trace := by decide

/-- C8: when the underlying file write succeeds, saveUserWallet followed by
getAllUserWallets yields a mapping whose entry for the saved user is the
saved wallet id, and every other user entry is exactly what
getAllUserWallets returned before the save. -/
theorem saveUserWallet_preserves_others (fs : FileState) (u w : String) (writeOk : Bool)
    (h : writeOk = true) :
    findWallet (getAllUserWallets (saveUserWallet writeOk fs u w)) u = some w ∧
    ∀ v, v ≠ u →
      findWallet (getAllUserWallets (saveUserWallet writeOk fs u w)) v =
        findWallet (getAllUserWallets fs) v := by
  subst h
  constructor
  · exact findWallet_setKey_self (getAllUserWallets fs) u w
  · intro v hv
    exact findWallet_setKey_ne (getAllUserWallets fs) u w v hv

/-- C8 witness: the theorem applied to a concrete one-entry database, saving
a wallet for a new user and checking both the new entry and the untouched
one. -/
theorem saveUserWallet_preserves_others_witness :
    findWallet (getAllUserWallets (saveUserWallet true ⟨some [("7", "wa11")]⟩ "9" "wb22")) "9" =
      some "wb22" ∧
    findWallet (getAllUserWallets (saveUserWallet true ⟨some [("7", "wa11")]⟩ "9" "wb22")) "7" =
      findWallet (getAllUserWallets ⟨some [("7", "wa11")]⟩) "7" :=
  ⟨(saveUserWallet_preserves_others ⟨some [("7", "wa11")]⟩ "9" "wb22" true rfl).1,
   (saveUserWallet_preserves_others ⟨some [("7", "wa11")]⟩ "9" "wb22" true rfl).2 "7" (by decide)⟩

/-- C9: getTokenBalance passes a successful lookup through, converts a
failure whose message contains the missing-account marker into the string 0,
and re-raises every other failure unchanged. -/
theorem getTokenBalance_missing_account_is_zero (msg amount : String) :
    getTokenBalance (.ok amount) = .ok amount ∧
    (strIncludes msg "could not find account" = true →
      getTokenBalance (.error msg) = .ok "0") ∧
    (strIncludes msg "could not find account" = false →
      getTokenBalance (.error msg) = .error msg) := by
  refine ⟨rfl, ?_, ?_⟩ <;> intro h <;> simp [getTokenBalance, h]

/-- C9 witness: the theorem applied to a missing-account error message, an
unrelated error message, and a successful lookup. -/
theorem getTokenBalance_missing_account_is_zero_witness :
    getTokenBalance (.error "failed to get info about account: could not find account xyz") =
      .ok "0" ∧
    getTokenBalance (.error "Network request failed") = .error "Network request failed" ∧
    getTokenBalance (.ok "12345") = .ok "12345" :=
  ⟨(getTokenBalance_missing_account_is_zero
      "failed to get info about account: could not find account xyz" "12345").2.1 (by decide),
   (getTokenBalance_missing_account_is_zero "Network request failed" "12345").2.2 (by decide),
   (getTokenBalance_missing_account_is_zero "Network request failed" "12345").1⟩

/-- C10: the removeLiquidity request sets shouldClaimAndClose exactly when
the requested bps equals 10000, and the SDK result is always normalized to
an array of transactions, also when the SDK returns a single transaction. -/
theorem removeLiquidity_claim_close_iff_full (α : Type)
    (sdk : RemoveLiquidityParams → SdkResult α) (p u : Pubkey) (bps : Int) :
    ((removeLiquidityParams p u bps).shouldClaimAndClose = true ↔ bps = 10000) ∧
    (∀ t, sdk (removeLiquidityParams p u bps) = .single t →
      removeLiquidity sdk p u bps = [t]) ∧
    (∀ ts, sdk (removeLiquidityParams p u bps) = .multiple ts →
      removeLiquidity sdk p u bps = ts) := by
  refine ⟨?_, ?_, ?_⟩
  · simp [removeLiquidityParams]
  · intro t h; simp [removeLiquidity, h, normalizeTxs]
  · intro ts h; simp [removeLiquidity, h, normalizeTxs]

/-- C10 witness: the theorem applied at bps = 10000 with a single-transaction
SDK result and at bps = 5000 with an array result. -/
theorem removeLiquidity_claim_close_iff_full_witness :
    (removeLiquidityParams 3 4 10000).shouldClaimAndClose = true ∧
    removeLiquidity (fun _ => SdkResult.single 9) 3 4 10000 = [9] ∧
    removeLiquidity (fun _ => SdkResult.multiple [8, 9]) 3 4 5000 = [8, 9] :=
  ⟨(removeLiquidity_claim_close_iff_full Nat (fun _ => SdkResult.single 9) 3 4 10000).1.mpr rfl,
   (removeLiquidity_claim_close_iff_full Nat (fun _ => SdkResult.single 9) 3 4 10000).2.1 9 rfl,
   (removeLiquidity_claim_close_iff_full Nat
      (fun _ => SdkResult.multiple [8, 9]) 3 4 5000).2.2 [8, 9] rfl⟩

end TgBot
